import Mathlib

/-!
Verification of the configuration-population pipeline of `tor_core/initialize.py`.

The Python source is shallowly embedded: each `populate_*` function becomes a
Lean function from a `Config` (the shared mutable config object) and an `Env`
(the external world: wiki-page fetcher, moderator list, cache reachability) to
a `StepResult` that records either normal completion, a failed wiki fetch
(the Python exception raised by `get_wiki_page` propagating), or a raised
`ValueError`/`IndexError`, together with the config state observable at that
point.  Python string primitives (`split`, `splitlines`, `strip`, `index`,
`startswith`, `int`, `str.lower`) are modelled by executable Lean functions
on `List Char` / `String` (line splitting covers `\n`, `\r\n` and `\r`;
lowering covers ASCII, which is what subreddit names use).
-/

/-- Python whitespace characters recognised by `str.strip()` and `int()`. -/
def wsChars : List Char := [' ', '\t', '\n', '\r', '\x0b', '\x0c']

/-- `l` with every leading and trailing character from `cs` removed:
model of Python `str.strip(cs)`. -/
def stripChars (cs : List Char) (l : List Char) : List Char :=
  ((l.dropWhile (cs.contains ·)).reverse.dropWhile (cs.contains ·)).reverse

/-- Model of Python `str.strip(cs)` on `String`. -/
def pyStripStr (cs : String) (s : String) : String :=
  String.mk (stripChars cs.data s.data)

/-- Model of Python `str.strip()` (default whitespace strip). -/
def pyStripWS (s : String) : String :=
  String.mk (stripChars wsChars s.data)

/-- Accumulator-based worker for `pySplitlines`; recognises `\r\n`, `\r`
and `\n` as line terminators and, like Python `str.splitlines`, emits no
trailing empty line for input ending in a terminator. -/
def pySplitlinesAux : List Char → List Char → List (List Char)
  | [], [] => []
  | [], acc => [acc.reverse]
  | '\r' :: '\n' :: rest, acc => acc.reverse :: pySplitlinesAux rest []
  | '\r' :: rest, acc => acc.reverse :: pySplitlinesAux rest []
  | '\n' :: rest, acc => acc.reverse :: pySplitlinesAux rest []
  | c :: rest, acc => pySplitlinesAux rest (c :: acc)

/-- Model of Python `str.splitlines()`. -/
def pySplitlines (s : String) : List String :=
  (pySplitlinesAux s.data []).map String.mk

/-- Model of Python `''.join(s.splitlines())`. -/
def joinLines (s : String) : String :=
  String.mk (pySplitlinesAux s.data []).flatten

/-- Fuel-based worker for `pySplit` (the fuel lets the kernel evaluate it;
`pySplit` always supplies enough fuel). -/
def pySplitAux (sep : List Char) : Nat → List Char → List Char → List (List Char)
  | _, [], acc => [acc.reverse]
  | 0, s, acc => [acc.reverse ++ s]
  | fuel + 1, c :: rest, acc =>
    if sep.isPrefixOf (c :: rest) then
      acc.reverse :: pySplitAux sep fuel ((c :: rest).drop sep.length) []
    else
      pySplitAux sep fuel rest (c :: acc)

/-- Model of Python `str.split(sep)` for a nonempty separator: keeps empty
pieces, so `pySplit sep "" = [""]`. -/
def pySplit (sep : String) (s : String) : List String :=
  (pySplitAux sep.data s.data.length s.data []).map String.mk

/-- Model of Python `str.startswith(p)`. -/
def pyStartsWith (p s : String) : Bool :=
  p.data.isPrefixOf s.data

/-- True iff the line contains a comma: model of Python `',' in line`. -/
def hasComma (s : String) : Bool :=
  s.data.contains ','

/-- Index of the first `'['` in the string, or `none`: model of Python
`s.index('[')`, which raises `ValueError` exactly when this is `none`. -/
def bracketIdx (s : String) : Option Nat :=
  s.data.findIdx? (· = '[')

/-- Model of Python `s[i:]`. -/
def pyDrop (n : Nat) (s : String) : String :=
  String.mk (s.data.drop n)

/-- ASCII lowering of one character: model of Python `str.lower` on the
alphabet subreddit names use. -/
def pyLowerChar : Char → Char
  | 'A' => 'a' | 'B' => 'b' | 'C' => 'c' | 'D' => 'd' | 'E' => 'e'
  | 'F' => 'f' | 'G' => 'g' | 'H' => 'h' | 'I' => 'i' | 'J' => 'j'
  | 'K' => 'k' | 'L' => 'l' | 'M' => 'm' | 'N' => 'n' | 'O' => 'o'
  | 'P' => 'p' | 'Q' => 'q' | 'R' => 'r' | 'S' => 's' | 'T' => 't'
  | 'U' => 'u' | 'V' => 'v' | 'W' => 'w' | 'X' => 'x' | 'Y' => 'y'
  | 'Z' => 'z'
  | c => c

/-- Model of Python `str.lower()`. -/
def pyLower (s : String) : String :=
  String.mk (s.data.map pyLowerChar)

/-- Value of a nonempty all-digit character list, else `none`. -/
def digitsVal (l : List Char) : Option Nat :=
  if l ≠ [] ∧ l.all Char.isDigit then
    some (l.foldl (fun a c => a * 10 + (c.toNat - 48)) 0)
  else
    none

/-- Model of Python `int(s)`: optional surrounding whitespace, optional
sign, nonempty digit run; `none` models the `ValueError` raise. -/
def pyInt (s : String) : Option Int :=
  match stripChars wsChars s.data with
  | '-' :: rest => (digitsVal rest).map (fun n => -(n : Int))
  | '+' :: rest => (digitsVal rest).map (fun n => (n : Int))
  | l => (digitsVal l).map (fun n => (n : Int))

/-- Python-dict assignment `m[k] = v` on an insertion-ordered association
list: overwrite in place when the key exists, else append. -/
def dictInsert (m : List (String × Int)) (k : String) (v : Int) :
    List (String × Int) :=
  if m.any (fun p => p.1 = k) then
    m.map (fun p => if p.1 = k then (k, v) else p)
  else
    m ++ [(k, v)]

/-- Modelled from the spec: `clean_list` is imported from
`tor_core.helpers`, whose source is not part of this repository; the spec
describes it as "trim each entry, drop empty entries"
(`ParseLineList`'s cleaning half). -/
def clean_list (l : List String) : List String :=
  (l.map pyStripWS).filter (fun s => !s.isEmpty)

/-- The cache handle stored in `config.redis`: absent before bootstrap, a
live server connection, or the lambda substituted when the caller opted out
of Redis (`config.redis = lambda: ... throw(NotImplementedError(...))`). -/
inductive RedisHandle where
  | absent
  | server
  | disabledThunk
deriving DecidableEq

/-- Calling the stored cache handle: the live connection answers, the
substituted lambda raises `NotImplementedError` on its first (and every)
use. -/
def RedisHandle.firstUse : RedisHandle → Except String Unit
  | .absent => .ok ()
  | .server => .ok ()
  | .disabledThunk => .error "NotImplementedError: Redis was disabled during building!"

/-- The shared mutable config object of `tor_core.config`, restricted to
the fields `initialize.py` reads or writes.  `r` holds the name the Reddit
client was authenticated as, `tor` the chosen subreddit. -/
structure Config where
  header : String := ""
  audio_formatting : String := ""
  video_formatting : String := ""
  image_formatting : String := ""
  video_domains : List String := []
  image_domains : List String := []
  audio_domains : List String := []
  subreddits_to_check : List String := []
  upvote_filter_subs : List (String × Int) := []
  no_link_header_subs : List String := []
  archive_time_default : Int := 0
  archive_time_subreddits : List (String × Int) := []
  no_gifs : List String := []
  tor_mods : List String := []
  debug_mode : Bool := false
  redis : RedisHandle := .absent
  tor : String := ""
  r : Option String := none
deriving DecidableEq

/-- The external world a bootstrap runs against: `fetch` is the
`get_wiki_page` capability (`none` models the fetch raising), `mods` the
platform's moderator list, `redisOk` whether the Redis `ping()` succeeds. -/
structure Env where
  fetch : String → Option String
  mods : List String
  redisOk : Bool

/-- Result of running one population step: normal return, a wiki fetch
raising (with the page name), or a `ValueError`/`IndexError` raised while
parsing.  In every case the config state observable at that point is
carried. -/
inductive StepResult where
  | ok (c : Config)
  | fetchFailed (c : Config) (page : String)
  | raised (c : Config)
deriving DecidableEq

/-- The config state observable after the step, whatever its outcome. -/
def StepResult.config : StepResult → Config
  | .ok c => c
  | .fetchFailed c _ => c
  | .raised c => c

/-- `get_wiki_page page` followed by continuation `k`; a failed fetch
propagates out of the step with the config state `c` reached so far. -/
def withPage (env : Env) (page : String) (c : Config)
    (k : String → StepResult) : StepResult :=
  match env.fetch page with
  | none => .fetchFailed c page
  | some t => k t

/-- One `sub, value = line.split(','); m[key] = int(value)` iteration (the
line is known to contain a comma): `none` models the `ValueError` raised
by unpacking a split of length ≠ 2 or by `int()`. -/
def kvUpdate (lower : Bool) (m : List (String × Int)) (line : String) :
    Option (List (String × Int)) :=
  match pySplit "," line with
  | [sub, value] =>
    match pyInt value with
    | some v => some (dictInsert m (if lower then pyLower sub else sub) v)
    | none => none
  | _ => none

/-- The `for line in ...: if ',' in line: ...` loop over key/value lines;
`Except.error` carries the partially built map at the point a `ValueError`
was raised. -/
def buildKV (lower : Bool) :
    List String → List (String × Int) →
    Except (List (String × Int)) (List (String × Int))
  | [], m => .ok m
  | line :: rest, m =>
    if hasComma line then
      match kvUpdate lower m line with
      | some m2 => buildKV lower rest m2
      | none => .error m
    else
      buildKV lower rest m

/-- The `for domainset in domains:` loop of `populate_domain_lists`: each
block's text from its first `'['` is stripped of brackets and split on
`', '`; the block is routed to the video/audio/images list by its prefix
(an unrecognised prefix appends to a discarded fresh list); a block with
no `'['` raises `ValueError` out of `index`. -/
def processDomainBlocks : List String → Config → StepResult
  | [], c => .ok c
  | b :: rest, c =>
    match bracketIdx b with
    | none => .raised c
    | some i =>
      let domain_list := pySplit ", " (pyStripStr "[]" (pyDrop i b))
      let c :=
        if pyStartsWith "video" b then
          { c with video_domains := c.video_domains ++ domain_list }
        else if pyStartsWith "audio" b then
          { c with audio_domains := c.audio_domains ++ domain_list }
        else if pyStartsWith "images" b then
          { c with image_domains := c.image_domains ++ domain_list }
        else c
      processDomainBlocks rest c

/-- `initialize.populate_header`. -/
def populate_header (c : Config) (env : Env) : StepResult :=
  let c := { c with header := "" }
  withPage env "format/header" c fun t =>
    .ok { c with header := t }

/-- `initialize.populate_formatting`: zero the three fields, then fetch
and store `format/audio`, `format/video`, `format/images` in that order. -/
def populate_formatting (c : Config) (env : Env) : StepResult :=
  let c := { c with audio_formatting := "", video_formatting := "",
                    image_formatting := "" }
  withPage env "format/audio" c fun ta =>
  let c := { c with audio_formatting := ta }
  withPage env "format/video" c fun tv =>
  let c := { c with video_formatting := tv }
  withPage env "format/images" c fun ti =>
    .ok { c with image_formatting := ti }

/-- `initialize.populate_domain_lists`: reset the three domain lists, fetch
`domains`, join its lines, split on `---`, and process each block. -/
def populate_domain_lists (c : Config) (env : Env) : StepResult :=
  let c := { c with video_domains := [], image_domains := [],
                    audio_domains := [] }
  withPage env "domains" c fun t =>
    processDomainBlocks (pySplit "---" (joinLines t)) c

/-- `initialize.populate_moderators`: nuke the cached list, then store the
platform's moderator list. -/
def populate_moderators (c : Config) (env : Env) : StepResult :=
  let c := { c with tor_mods := [] }
  .ok { c with tor_mods := env.mods }

/-- `initialize.populate_subreddit_lists`: reset the three eager fields,
then fetch and parse `subreddits`, `subreddits/upvote-filtered`,
`subreddits/no-link-header` and `subreddits/archive-time` in order,
mutating the config as the source does (the archive fields are only
touched after the archive-time fetch and `int(lines[0])` succeed). -/
def populate_subreddit_lists (c : Config) (env : Env) : StepResult :=
  let c := { c with subreddits_to_check := [], upvote_filter_subs := [],
                    no_link_header_subs := [] }
  withPage env "subreddits" c fun t1 =>
  let c := { c with subreddits_to_check := clean_list (pySplit "\r\n" t1) }
  withPage env "subreddits/upvote-filtered" c fun t2 =>
  match buildKV false (pySplitlines t2) c.upvote_filter_subs with
  | .error m => .raised { c with upvote_filter_subs := m }
  | .ok m =>
  let c := { c with upvote_filter_subs := m }
  withPage env "subreddits/no-link-header" c fun t3 =>
  let c := { c with no_link_header_subs := clean_list (pySplit "\r\n" t3) }
  withPage env "subreddits/archive-time" c fun t4 =>
  match pySplitlines t4 with
  | [] => .raised c
  | l0 :: rest =>
    match pyInt l0 with
    | none => .raised c
    | some d =>
      let c := { c with archive_time_default := d,
                        archive_time_subreddits := [] }
      match buildKV true rest c.archive_time_subreddits with
      | .error m => .raised { c with archive_time_subreddits := m }
      | .ok m => .ok { c with archive_time_subreddits := m }

/-- `initialize.populate_gifs`: zero out `no_gifs`, then store the raw
`'\r\n'` split of `usefulgifs/no` (no `clean_list` here). -/
def populate_gifs (c : Config) (env : Env) : StepResult :=
  let c := { c with no_gifs := [] }
  withPage env "usefulgifs/no" c fun t =>
    .ok { c with no_gifs := pySplit "\r\n" t }

/-- `initialize.configure_tor`: the debug flag selects the target
subreddit. -/
def configure_tor (c : Config) : String :=
  if c.debug_mode then "ModsOfToR" else "transcribersofreddit"

/-- Observable bootstrap events, in particular each population step being
invoked. -/
inductive Ev where
  | auth
  | configureLogging
  | cacheCheck
  | selectSubreddit
  | popStep (s : String)
deriving DecidableEq

/-- The fixed order of population steps run by `initialize.initialize`. -/
def stepNames : List String :=
  ["domains", "subreddits", "formatting", "header", "moderators", "gifs"]

/-- Events for the first `n` population steps having started. -/
def initEvs (n : Nat) : List Ev :=
  (stepNames.take n).map Ev.popStep

/-- `initialize.initialize`: the six population steps in fixed order; the
first failure propagates (later steps are not run). -/
def run_population_steps (c : Config) (env : Env) : List Ev × StepResult :=
  match populate_domain_lists c env with
  | .ok c =>
    match populate_subreddit_lists c env with
    | .ok c =>
      match populate_formatting c env with
      | .ok c =>
        match populate_header c env with
        | .ok c =>
          match populate_moderators c env with
          | .ok c =>
            match populate_gifs c env with
            | .ok c => (initEvs 6, .ok c)
            | r => (initEvs 6, r)
          | r => (initEvs 5, r)
        | r => (initEvs 4, r)
      | r => (initEvs 3, r)
    | r => (initEvs 2, r)
  | r => (initEvs 1, r)

/-- Outcome of `build_bot`: `sys.exit(code)`, an exception propagating out
of a population step (fetch page name when it was a fetch failure), or the
fully built config. -/
inductive BootResult where
  | exited (code : Nat)
  | raisedB (c : Config) (page : Option String)
  | ready (c : Config)
deriving DecidableEq

/-- Tail of `build_bot` after the cache phase: `configure_tor`, then
`initialize`. -/
def finishBoot (c : Config) (env : Env) (pre : List Ev) : List Ev × BootResult :=
  let c := { c with tor := configure_tor c }
  let res := run_population_steps c env
  (pre ++ Ev.selectSubreddit :: res.1,
   match res.2 with
   | .ok c2 => .ready c2
   | .fetchFailed c2 p => .raisedB c2 (some p)
   | .raised c2 => .raisedB c2 none)

/-- `initialize.build_bot`: authenticate the Reddit client, configure
logging, connect Redis (exiting with status 1 if a required ping fails, or
substituting the lazily failing thunk when Redis is not required), select
the subreddit, then run the population steps. -/
def build_bot (name : String) (require_redis : Bool) (env : Env)
    (c0 : Config) : List Ev × BootResult :=
  let c := { c0 with r := some name }
  if require_redis then
    if env.redisOk then
      finishBoot { c with redis := .server } env
        [Ev.auth, Ev.configureLogging, Ev.cacheCheck]
    else
      ([Ev.auth, Ev.configureLogging, Ev.cacheCheck], .exited 1)
  else
    finishBoot { c with redis := .disabledThunk } env
      [Ev.auth, Ev.configureLogging]

/-- Bootstrap phase of an event, in source order. -/
def phase : Ev → Nat
  | .auth => 0
  | .configureLogging => 1
  | .cacheCheck => 2
  | .selectSubreddit => 3
  | .popStep _ => 4

/-- An environment where every wiki fetch fails. -/
def envNone : Env := ⟨fun _ => none, [], true⟩

/-- Environment for the claimed `ParseDomainBlocks` example input. -/
def envDomainsEx : Env :=
  ⟨fun p => if p = "domains" then some "video[a.com, b.com]---audio[c.com]"
            else none,
   [], true⟩

/-- Environment whose domains page ends in a trailing `---` delimiter,
producing an empty final block. -/
def envDomainsBad : Env :=
  ⟨fun p => if p = "domains" then some "video[a.com]---" else none, [], true⟩

/-- Environment whose gif blocklist page is empty. -/
def envGifsEmpty : Env :=
  ⟨fun p => if p = "usefulgifs/no" then some "" else none, [], true⟩

/-- A fetch assignment under which every population step succeeds. -/
def goodFetch : String → Option String := fun p =>
  if p = "domains" then some "video[a.com, b.com]---audio[c.com]---images[d.com]"
  else if p = "subreddits" then some "sub1\r\nsub2"
  else if p = "subreddits/upvote-filtered" then some "sub1,10"
  else if p = "subreddits/no-link-header" then some "sub2"
  else if p = "subreddits/archive-time" then some "600\r\nFoo,100"
  else if p = "format/audio" then some "A"
  else if p = "format/video" then some "V"
  else if p = "format/images" then some "I"
  else if p = "format/header" then some "H"
  else if p = "usefulgifs/no" then some "g1\r\ng2"
  else none

/-- A fully healthy environment. -/
def goodEnv : Env := ⟨goodFetch, ["mod1", "mod2"], true⟩

/-- A config holding values from a previous successful population, used to
observe what a failing re-run leaves behind. -/
def cOld : Config :=
  { header := "oldH", audio_formatting := "old", video_formatting := "oldV",
    image_formatting := "oldI", video_domains := ["old.com"],
    image_domains := ["oldi.com"], audio_domains := ["olda.com"],
    subreddits_to_check := ["oldsub"], upvote_filter_subs := [("oldsub", 5)],
    no_link_header_subs := ["oldnl"], archive_time_default := 7,
    archive_time_subreddits := [("oldar", 9)], no_gifs := ["oldgif"],
    tor_mods := ["oldmod"] }

/-- The data `populate_subreddit_lists` extracts from the environment: how
far it got and every value it computed on the way.  This is determined by
the environment alone. -/
inductive SubPure where
  | f1
  | f2 (subs : List String)
  | r2 (subs : List String) (m : List (String × Int))
  | f3 (subs : List String) (m : List (String × Int))
  | f4 (subs : List String) (m : List (String × Int)) (nl : List String)
  | r4a (subs : List String) (m : List (String × Int)) (nl : List String)
  | r4b (subs : List String) (m : List (String × Int)) (nl : List String)
        (d : Int) (am : List (String × Int))
  | okS (subs : List String) (m : List (String × Int)) (nl : List String)
        (d : Int) (am : List (String × Int))
deriving DecidableEq

/-- The environment-determined part of `populate_subreddit_lists`. -/
def subPure (env : Env) : SubPure :=
  match env.fetch "subreddits" with
  | none => .f1
  | some t1 =>
    let subs := clean_list (pySplit "\r\n" t1)
    match env.fetch "subreddits/upvote-filtered" with
    | none => .f2 subs
    | some t2 =>
      match buildKV false (pySplitlines t2) [] with
      | .error m => .r2 subs m
      | .ok m =>
        match env.fetch "subreddits/no-link-header" with
        | none => .f3 subs m
        | some t3 =>
          let nl := clean_list (pySplit "\r\n" t3)
          match env.fetch "subreddits/archive-time" with
          | none => .f4 subs m nl
          | some t4 =>
            match pySplitlines t4 with
            | [] => .r4a subs m nl
            | l0 :: rest =>
              match pyInt l0 with
              | none => .r4a subs m nl
              | some d =>
                match buildKV true rest [] with
                | .error am => .r4b subs m nl d am
                | .ok am => .okS subs m nl d am

/-- Writing the extracted data back into a config, reproducing exactly the
mutations the source performed up to the point it stopped. -/
def applySub (c : Config) : SubPure → StepResult
  | .f1 =>
    .fetchFailed { c with subreddits_to_check := [], upvote_filter_subs := [],
                          no_link_header_subs := [] } "subreddits"
  | .f2 subs =>
    .fetchFailed { c with subreddits_to_check := subs, upvote_filter_subs := [],
                          no_link_header_subs := [] } "subreddits/upvote-filtered"
  | .r2 subs m =>
    .raised { c with subreddits_to_check := subs, upvote_filter_subs := m,
                     no_link_header_subs := [] }
  | .f3 subs m =>
    .fetchFailed { c with subreddits_to_check := subs, upvote_filter_subs := m,
                          no_link_header_subs := [] } "subreddits/no-link-header"
  | .f4 subs m nl =>
    .fetchFailed { c with subreddits_to_check := subs, upvote_filter_subs := m,
                          no_link_header_subs := nl } "subreddits/archive-time"
  | .r4a subs m nl =>
    .raised { c with subreddits_to_check := subs, upvote_filter_subs := m,
                     no_link_header_subs := nl }
  | .r4b subs m nl d am =>
    .raised { c with subreddits_to_check := subs, upvote_filter_subs := m,
                     no_link_header_subs := nl, archive_time_default := d,
                     archive_time_subreddits := am }
  | .okS subs m nl d am =>
    .ok { c with subreddits_to_check := subs, upvote_filter_subs := m,
                 no_link_header_subs := nl, archive_time_default := d,
                 archive_time_subreddits := am }

/-- The claimed phase discipline of C4: every subreddit-selection event
occurs before every cache-check event. -/
abbrev claimedPhaseOrder (t : List Ev) : Prop :=
  ∀ i j : Fin t.length,
    t.get i = Ev.selectSubreddit → t.get j = Ev.cacheCheck → i.val < j.val

/-- `cOld` with the formatting fields eagerly reset. -/
def cOldReset : Config :=
  { cOld with audio_formatting := "", video_formatting := "",
              image_formatting := "" }

/-- A healthy environment except that the Redis ping fails. -/
def envNoRedis : Env := ⟨goodFetch, ["mod1", "mod2"], false⟩

/-- The config produced by running the subreddit-list step from the default
config under `goodEnv`. -/
def cSubGood : Config :=
  { subreddits_to_check := ["sub1", "sub2"],
    upvote_filter_subs := [("sub1", 10)],
    no_link_header_subs := ["sub2"],
    archive_time_default := 600,
    archive_time_subreddits := [("foo", 100)] }

/-- The config produced by a full cache-less bootstrap under `goodEnv`. -/
def cReadyNR : Config :=
  { header := "H", audio_formatting := "A", video_formatting := "V",
    image_formatting := "I",
    video_domains := ["a.com", "b.com"], image_domains := ["d.com"],
    audio_domains := ["c.com"],
    subreddits_to_check := ["sub1", "sub2"],
    upvote_filter_subs := [("sub1", 10)],
    no_link_header_subs := ["sub2"],
    archive_time_default := 600,
    archive_time_subreddits := [("foo", 100)],
    no_gifs := ["g1", "g2"], tor_mods := ["mod1", "mod2"],
    redis := .disabledThunk, tor := "transcribersofreddit",
    r := some "bot" }

example : pySplit "\r\n" "" = [""] := by decide

example : clean_list (pySplit "\r\n" "") = [] := by decide

example : clean_list (pySplit "\r\n" "a\r\nb\r\n\r\nc") = ["a", "b", "c"] := by decide

example : pySplitlines "600\r\nfoo,100" = ["600", "foo,100"] := by decide

example : pyInt " 600 " = some 600 := by decide

example : pyInt "-32" = some (-32) := by decide

example : pyInt "x2" = none := by decide

example : pyLower "BAR" = "bar" := by decide

example : joinLines "video[a.com]\n---x" = "video[a.com]---x" := by decide

example : pySplit "---" "video[a]---audio[b]" = ["video[a]", "audio[b]"] := by decide

example : pySplit "---" "video[a]---" = ["video[a]", ""] := by decide

example : bracketIdx "video[a]" = some 5 := by decide

example : pyStripStr "[]" (pyDrop 5 "video[a.com, b.com]") = "a.com, b.com" := by decide

example :
    populate_domain_lists {} envDomainsEx =
      .ok { video_domains := ["a.com", "b.com"], audio_domains := ["c.com"] } := by
  decide

example :
    populate_domain_lists {} envDomainsBad =
      .raised { video_domains := ["a.com"] } := by
  decide

example :
    populate_gifs {} envGifsEmpty = .ok { no_gifs := [""] } := by
  decide

example :
    (build_bot "bot" true goodEnv {}).1 =
      [Ev.auth, Ev.configureLogging, Ev.cacheCheck, Ev.selectSubreddit,
       Ev.popStep "domains", Ev.popStep "subreddits", Ev.popStep "formatting",
       Ev.popStep "header", Ev.popStep "moderators", Ev.popStep "gifs"] := by
  decide

example :
    (build_bot "bot" true goodEnv {}).2 =
      .ready { video_domains := ["a.com", "b.com"], audio_domains := ["c.com"],
               image_domains := ["d.com"],
               subreddits_to_check := ["sub1", "sub2"],
               upvote_filter_subs := [("sub1", 10)],
               no_link_header_subs := ["sub2"],
               archive_time_default := 600,
               archive_time_subreddits := [("foo", 100)],
               audio_formatting := "A", video_formatting := "V",
               image_formatting := "I", header := "H",
               no_gifs := ["g1", "g2"], tor_mods := ["mod1", "mod2"],
               redis := .server, tor := "transcribersofreddit",
               r := some "bot" } := by
  decide

lemma populate_subreddit_lists_eq (c : Config) (env : Env) :
    populate_subreddit_lists c env = applySub c (subPure env) := by
  unfold populate_subreddit_lists subPure withPage
  dsimp only
  cases env.fetch "subreddits" with
  | none => rfl
  | some t1 =>
    dsimp only
    cases env.fetch "subreddits/upvote-filtered" with
    | none => rfl
    | some t2 =>
      dsimp only
      cases buildKV false (pySplitlines t2) [] with
      | error m => rfl
      | ok m =>
        dsimp only
        cases env.fetch "subreddits/no-link-header" with
        | none => rfl
        | some t3 =>
          dsimp only
          cases env.fetch "subreddits/archive-time" with
          | none => rfl
          | some t4 =>
            dsimp only
            cases pySplitlines t4 with
            | nil => rfl
            | cons l0 rest =>
              dsimp only
              cases pyInt l0 with
              | none => rfl
              | some d =>
                dsimp only
                cases buildKV true rest [] with
                | error am => rfl
                | ok am => rfl

lemma applySub_rerun (c : Config) (o : SubPure) :
    applySub ((applySub c o).config) o = applySub c o := by
  cases o <;> rfl

lemma applySub_redis (c : Config) (o : SubPure) :
    ((applySub c o).config).redis = c.redis := by
  cases o <;> rfl

lemma subPure_okS {env : Env} {subs nl : List String}
    {m am : List (String × Int)} {d : Int}
    (h : subPure env = .okS subs m nl d am) :
    ∃ t1 t2 t3 t4 l0 rest,
      env.fetch "subreddits" = some t1 ∧
      subs = clean_list (pySplit "\r\n" t1) ∧
      env.fetch "subreddits/upvote-filtered" = some t2 ∧
      buildKV false (pySplitlines t2) [] = .ok m ∧
      env.fetch "subreddits/no-link-header" = some t3 ∧
      nl = clean_list (pySplit "\r\n" t3) ∧
      env.fetch "subreddits/archive-time" = some t4 ∧
      pySplitlines t4 = l0 :: rest ∧
      pyInt l0 = some d ∧
      buildKV true rest [] = .ok am := by
  unfold subPure at h
  cases h1 : env.fetch "subreddits" with
  | none => rw [h1] at h; cases h
  | some t1 =>
    rw [h1] at h; dsimp only at h
    cases h2 : env.fetch "subreddits/upvote-filtered" with
    | none => rw [h2] at h; cases h
    | some t2 =>
      rw [h2] at h; dsimp only at h
      cases h3 : buildKV false (pySplitlines t2) [] with
      | error m0 => rw [h3] at h; cases h
      | ok m0 =>
        rw [h3] at h; dsimp only at h
        cases h4 : env.fetch "subreddits/no-link-header" with
        | none => rw [h4] at h; cases h
        | some t3 =>
          rw [h4] at h; dsimp only at h
          cases h5 : env.fetch "subreddits/archive-time" with
          | none => rw [h5] at h; cases h
          | some t4 =>
            rw [h5] at h; dsimp only at h
            cases h6 : pySplitlines t4 with
            | nil => rw [h6] at h; cases h
            | cons l0 rest =>
              rw [h6] at h; dsimp only at h
              cases h7 : pyInt l0 with
              | none => rw [h7] at h; cases h
              | some d0 =>
                rw [h7] at h; dsimp only at h
                cases h8 : buildKV true rest [] with
                | error am0 => rw [h8] at h; cases h
                | ok am0 =>
                  rw [h8] at h; dsimp only at h
                  injection h with hsubs hm hnl hd ham
                  subst hsubs; subst hm; subst hnl; subst hd; subst ham
                  exact ⟨t1, t2, t3, t4, l0, rest, rfl, rfl, rfl, h3, rfl, rfl,
                         rfl, h6, h7, h8⟩

lemma populate_subreddit_lists_okE {c : Config} {env : Env} {c' : Config}
    (h : populate_subreddit_lists c env = .ok c') :
    ∃ t1 t3 m d rest am,
      env.fetch "subreddits" = some t1 ∧
      env.fetch "subreddits/no-link-header" = some t3 ∧
      (∃ t4 l0, env.fetch "subreddits/archive-time" = some t4 ∧
        pySplitlines t4 = l0 :: rest ∧ pyInt l0 = some d) ∧
      buildKV true rest [] = .ok am ∧
      c' = { c with subreddits_to_check := clean_list (pySplit "\r\n" t1),
                    upvote_filter_subs := m,
                    no_link_header_subs := clean_list (pySplit "\r\n" t3),
                    archive_time_default := d,
                    archive_time_subreddits := am } := by
  rw [populate_subreddit_lists_eq] at h
  cases ho : subPure env with
  | f1 => rw [ho] at h; cases h
  | f2 subs => rw [ho] at h; cases h
  | r2 subs m => rw [ho] at h; cases h
  | f3 subs m => rw [ho] at h; cases h
  | f4 subs m nl => rw [ho] at h; cases h
  | r4a subs m nl => rw [ho] at h; cases h
  | r4b subs m nl d am => rw [ho] at h; cases h
  | okS subs m nl d am =>
    rw [ho] at h
    injection h with hc
    rcases subPure_okS ho with
      ⟨t1, t2, t3, t4, l0, rest, e1, esubs, e2, ekv, e3, enl, e4, el, eint, earch⟩
    exact ⟨t1, t3, m, d, rest, am, e1, e3, ⟨t4, l0, e4, el, eint⟩, earch,
           by rw [← hc, esubs, enl]⟩

lemma processDomainBlocks_reset (blocks : List String) :
    ∀ c : Config,
      { (processDomainBlocks blocks c).config with
          video_domains := [],
          image_domains := [],
          audio_domains := [] } =
      { c with video_domains := [], image_domains := [], audio_domains := [] } := by
  induction blocks with
  | nil => intro c; rfl
  | cons b rest ih =>
    intro c
    simp only [processDomainBlocks]
    cases bracketIdx b with
    | none => rfl
    | some i =>
      dsimp only
      rw [ih]
      split
      · rfl
      · split
        · rfl
        · split <;> rfl

lemma processDomainBlocks_redis (blocks : List String) :
    ∀ c : Config, ((processDomainBlocks blocks c).config).redis = c.redis := by
  intro c
  have h := processDomainBlocks_reset blocks c
  have h2 := congrArg Config.redis h
  exact h2

lemma populate_domain_lists_rerun (c : Config) (env : Env) :
    populate_domain_lists ((populate_domain_lists c env).config) env =
      populate_domain_lists c env := by
  unfold populate_domain_lists withPage
  cases env.fetch "domains" with
  | none => rfl
  | some t =>
    dsimp only
    rw [processDomainBlocks_reset]

lemma populate_formatting_rerun (c : Config) (env : Env) :
    populate_formatting ((populate_formatting c env).config) env =
      populate_formatting c env := by
  unfold populate_formatting withPage
  cases env.fetch "format/audio" with
  | none => rfl
  | some ta =>
    dsimp only
    cases env.fetch "format/video" with
    | none => rfl
    | some tv =>
      dsimp only
      cases env.fetch "format/images" with
      | none => rfl
      | some ti => rfl

lemma populate_header_rerun (c : Config) (env : Env) :
    populate_header ((populate_header c env).config) env =
      populate_header c env := by
  unfold populate_header withPage
  cases env.fetch "format/header" with
  | none => rfl
  | some t => rfl

lemma populate_gifs_rerun (c : Config) (env : Env) :
    populate_gifs ((populate_gifs c env).config) env = populate_gifs c env := by
  unfold populate_gifs withPage
  cases env.fetch "usefulgifs/no" with
  | none => rfl
  | some t => rfl

lemma populate_subreddit_lists_rerun (c : Config) (env : Env) :
    populate_subreddit_lists ((populate_subreddit_lists c env).config) env =
      populate_subreddit_lists c env := by
  rw [populate_subreddit_lists_eq, populate_subreddit_lists_eq,
      applySub_rerun]

lemma populate_moderators_rerun (c : Config) (env : Env) :
    populate_moderators ((populate_moderators c env).config) env =
      populate_moderators c env := by
  rfl

lemma populate_header_redis (c : Config) (env : Env) :
    ((populate_header c env).config).redis = c.redis := by
  unfold populate_header withPage
  cases env.fetch "format/header" <;> rfl

lemma populate_formatting_redis (c : Config) (env : Env) :
    ((populate_formatting c env).config).redis = c.redis := by
  unfold populate_formatting withPage
  cases env.fetch "format/audio"
  · rfl
  · dsimp only
    cases env.fetch "format/video"
    · rfl
    · dsimp only
      cases env.fetch "format/images" <;> rfl

lemma populate_domain_lists_redis (c : Config) (env : Env) :
    ((populate_domain_lists c env).config).redis = c.redis := by
  unfold populate_domain_lists withPage
  cases env.fetch "domains"
  · rfl
  · dsimp only
    rw [processDomainBlocks_redis]

lemma populate_subreddit_lists_redis (c : Config) (env : Env) :
    ((populate_subreddit_lists c env).config).redis = c.redis := by
  rw [populate_subreddit_lists_eq, applySub_redis]

lemma populate_moderators_redis (c : Config) (env : Env) :
    ((populate_moderators c env).config).redis = c.redis := by
  rfl

lemma populate_gifs_redis (c : Config) (env : Env) :
    ((populate_gifs c env).config).redis = c.redis := by
  unfold populate_gifs withPage
  cases env.fetch "usefulgifs/no" <;> rfl

lemma run_population_steps_shape (c : Config) (env : Env) :
    ∃ n, (run_population_steps c env).1 = initEvs n := by
  unfold run_population_steps
  repeat' split
  all_goals exact ⟨_, rfl⟩

lemma run_population_steps_redis (c : Config) (env : Env) :
    (((run_population_steps c env).2).config).redis = c.redis := by
  unfold run_population_steps
  cases h1 : populate_domain_lists c env with
  | ok c1 =>
    have e1 : c1.redis = c.redis := by
      have := populate_domain_lists_redis c env; rwa [h1] at this
    dsimp only
    cases h2 : populate_subreddit_lists c1 env with
    | ok c2 =>
      have e2 : c2.redis = c1.redis := by
        have := populate_subreddit_lists_redis c1 env; rwa [h2] at this
      dsimp only
      cases h3 : populate_formatting c2 env with
      | ok c3 =>
        have e3 : c3.redis = c2.redis := by
          have := populate_formatting_redis c2 env; rwa [h3] at this
        dsimp only
        cases h4 : populate_header c3 env with
        | ok c4 =>
          have e4 : c4.redis = c3.redis := by
            have := populate_header_redis c3 env; rwa [h4] at this
          dsimp only
          cases h5 : populate_moderators c4 env with
          | ok c5 =>
            have e5 : c5.redis = c4.redis := by
              have := populate_moderators_redis c4 env; rwa [h5] at this
            dsimp only
            cases h6 : populate_gifs c5 env with
            | ok c6 =>
              have e6 : c6.redis = c5.redis := by
                have := populate_gifs_redis c5 env; rwa [h6] at this
              simp only [StepResult.config]
              rw [e6, e5, e4, e3, e2, e1]
            | fetchFailed c6 p =>
              have e6 : c6.redis = c5.redis := by
                have := populate_gifs_redis c5 env; rwa [h6] at this
              simp only [StepResult.config]
              rw [e6, e5, e4, e3, e2, e1]
            | raised c6 =>
              have e6 : c6.redis = c5.redis := by
                have := populate_gifs_redis c5 env; rwa [h6] at this
              simp only [StepResult.config]
              rw [e6, e5, e4, e3, e2, e1]
          | fetchFailed c5 p =>
            have e5 : c5.redis = c4.redis := by
              have := populate_moderators_redis c4 env; rwa [h5] at this
            simp only [StepResult.config]
            rw [e5, e4, e3, e2, e1]
          | raised c5 =>
            have e5 : c5.redis = c4.redis := by
              have := populate_moderators_redis c4 env; rwa [h5] at this
            simp only [StepResult.config]
            rw [e5, e4, e3, e2, e1]
        | fetchFailed c4 p =>
          have e4 : c4.redis = c3.redis := by
            have := populate_header_redis c3 env; rwa [h4] at this
          simp only [StepResult.config]
          rw [e4, e3, e2, e1]
        | raised c4 =>
          have e4 : c4.redis = c3.redis := by
            have := populate_header_redis c3 env; rwa [h4] at this
          simp only [StepResult.config]
          rw [e4, e3, e2, e1]
      | fetchFailed c3 p =>
        have e3 : c3.redis = c2.redis := by
          have := populate_formatting_redis c2 env; rwa [h3] at this
        simp only [StepResult.config]
        rw [e3, e2, e1]
      | raised c3 =>
        have e3 : c3.redis = c2.redis := by
          have := populate_formatting_redis c2 env; rwa [h3] at this
        simp only [StepResult.config]
        rw [e3, e2, e1]
    | fetchFailed c2 p =>
      have e2 : c2.redis = c1.redis := by
        have := populate_subreddit_lists_redis c1 env; rwa [h2] at this
      simp only [StepResult.config]
      rw [e2, e1]
    | raised c2 =>
      have e2 : c2.redis = c1.redis := by
        have := populate_subreddit_lists_redis c1 env; rwa [h2] at this
      simp only [StepResult.config]
      rw [e2, e1]
  | fetchFailed c1 p =>
    have e1 : c1.redis = c.redis := by
      have := populate_domain_lists_redis c env; rwa [h1] at this
    simp only [StepResult.config]
    rw [e1]
  | raised c1 =>
    have e1 : c1.redis = c.redis := by
      have := populate_domain_lists_redis c env; rwa [h1] at this
    simp only [StepResult.config]
    rw [e1]

lemma pyLowerChar_fix (c : Char) (h : c ∉ ['A', 'B', 'C', 'D', 'E', 'F', 'G',
    'H', 'I', 'J', 'K', 'L', 'M', 'N', 'O', 'P', 'Q', 'R', 'S', 'T', 'U',
    'V', 'W', 'X', 'Y', 'Z']) : pyLowerChar c = c := by
  unfold pyLowerChar
  split
  all_goals first
    | rfl
    | (revert h; decide)

lemma pyLowerChar_idem (c : Char) :
    pyLowerChar (pyLowerChar c) = pyLowerChar c := by
  by_cases h : c ∈ ['A', 'B', 'C', 'D', 'E', 'F', 'G', 'H', 'I', 'J', 'K',
    'L', 'M', 'N', 'O', 'P', 'Q', 'R', 'S', 'T', 'U', 'V', 'W', 'X', 'Y', 'Z']
  · fin_cases h <;> rfl
  · rw [pyLowerChar_fix c h, pyLowerChar_fix c h]

lemma pyLower_idem (s : String) : pyLower (pyLower s) = pyLower s := by
  unfold pyLower
  refine congrArg String.mk ?_
  rw [List.map_map]
  exact List.map_congr_left (fun a _ => pyLowerChar_idem a)

lemma mem_dictInsert {m : List (String × Int)} {k : String} {v : Int}
    {kv : String × Int} (h : kv ∈ dictInsert m k v) :
    kv.1 = k ∨ kv ∈ m := by
  unfold dictInsert at h
  split at h
  · rcases List.mem_map.1 h with ⟨p, hp, he⟩
    by_cases hk : p.1 = k
    · rw [if_pos hk] at he
      left
      rw [← he]
    · rw [if_neg hk] at he
      right
      rw [← he]
      exact hp
  · rcases List.mem_append.1 h with h2 | h2
    · right; exact h2
    · left
      rw [List.mem_singleton.1 h2]

lemma kvUpdate_lower_keys {m m2 : List (String × Int)} {line : String}
    (h : kvUpdate true m line = some m2)
    (hm : ∀ kv ∈ m, pyLower kv.1 = kv.1) :
    ∀ kv ∈ m2, pyLower kv.1 = kv.1 := by
  unfold kvUpdate at h
  split at h
  · rename_i sub value
    split at h
    · rename_i v hv
      injection h with h2
      intro kv hkv
      rw [← h2] at hkv
      rcases mem_dictInsert hkv with h3 | h3
      · simp only [if_true] at h3
        rw [h3]
        exact pyLower_idem _
      · exact hm kv h3
    · cases h
  · cases h

lemma buildKV_lower_keys :
    ∀ (lines : List String) (m m' : List (String × Int)),
      buildKV true lines m = .ok m' →
      (∀ kv ∈ m, pyLower kv.1 = kv.1) →
      ∀ kv ∈ m', pyLower kv.1 = kv.1 := by
  intro lines
  induction lines with
  | nil =>
    intro m m' h hm
    injection h with h2
    rw [← h2]
    exact hm
  | cons line rest ih =>
    intro m m' h hm
    unfold buildKV at h
    split at h
    · split at h
      · rename_i m2 hup
        exact ih m2 m' h (kvUpdate_lower_keys hup hm)
      · cases h
    · exact ih m m' h hm

lemma buildKV_filter (lower : Bool) :
    ∀ (lines : List String) (m : List (String × Int)),
      buildKV lower lines m =
        buildKV lower (lines.filter (fun l => hasComma l)) m := by
  intro lines
  induction lines with
  | nil => intro m; rfl
  | cons line rest ih =>
    intro m
    by_cases h : hasComma line = true
    · rw [List.filter_cons_of_pos h]
      simp only [buildKV]
      rw [if_pos h, if_pos h]
      cases kvUpdate lower m line with
      | none => rfl
      | some m2 =>
        dsimp only
        exact ih m2
    · rw [List.filter_cons_of_neg h]
      simp only [buildKV]
      rw [if_neg h]
      exact ih m

lemma clean_list_no_empty (l : List String) : "" ∉ clean_list l := by
  intro h
  unfold clean_list at h
  rcases List.mem_filter.1 h with ⟨_, h2⟩
  rw [show "".isEmpty = true from rfl] at h2
  cases h2

lemma processDomainBlocks_unknown {b : String} {i : Nat}
    (rest : List String) (c : Config)
    (hb : bracketIdx b = some i)
    (hv : pyStartsWith "video" b = false)
    (ha : pyStartsWith "audio" b = false)
    (hi : pyStartsWith "images" b = false) :
    processDomainBlocks (b :: rest) c = processDomainBlocks rest c := by
  simp only [processDomainBlocks, hb, hv, ha, hi]
  rfl

lemma processDomainBlocks_raises :
    ∀ (blocks : List String) (c : Config),
      (∃ b ∈ blocks, bracketIdx b = none) →
      ∃ c', processDomainBlocks blocks c = .raised c' := by
  intro blocks
  induction blocks with
  | nil =>
    intro c ⟨b, hb, _⟩
    cases hb
  | cons b rest ih =>
    intro c ⟨b0, hb0, hb0n⟩
    cases hbi : bracketIdx b with
    | none => exact ⟨c, by simp only [processDomainBlocks, hbi]⟩
    | some i =>
      rcases List.mem_cons.1 hb0 with rfl | hmem
      · rw [hbi] at hb0n
        cases hb0n
      · simp only [processDomainBlocks, hbi]
        exact ih _ ⟨b0, hmem, hb0n⟩

lemma build_bot_false (name : String) (env : Env) (c0 : Config) :
    build_bot name false env c0 =
      finishBoot { { c0 with r := some name } with redis := .disabledThunk }
        env [Ev.auth, Ev.configureLogging] := by
  rfl

lemma build_bot_true_ok (name : String) (env : Env) (c0 : Config)
    (h : env.redisOk = true) :
    build_bot name true env c0 =
      finishBoot { { c0 with r := some name } with redis := .server }
        env [Ev.auth, Ev.configureLogging, Ev.cacheCheck] := by
  unfold build_bot
  rw [h]
  rfl

lemma build_bot_true_fail (name : String) (env : Env) (c0 : Config)
    (h : env.redisOk = false) :
    build_bot name true env c0 =
      ([Ev.auth, Ev.configureLogging, Ev.cacheCheck], .exited 1) := by
  unfold build_bot
  rw [h]
  rfl

lemma phase_initEvs (n : Nat) (e : Ev) (he : e ∈ initEvs n) : phase e = 4 := by
  unfold initEvs at he
  rcases List.mem_map.1 he with ⟨s, _, rfl⟩
  rfl

lemma pairwise_popStep (l : List String) :
    List.Pairwise (fun a b => phase a ≤ phase b) (l.map Ev.popStep) := by
  induction l with
  | nil => exact List.Pairwise.nil
  | cons a l ih =>
    rw [List.map_cons, List.pairwise_cons]
    refine ⟨fun b hb => ?_, ih⟩
    rcases List.mem_map.1 hb with ⟨s, _, rfl⟩
    exact Nat.le_refl 4

lemma pairwise_initEvs (n : Nat) :
    List.Pairwise (fun a b => phase a ≤ phase b) (initEvs n) := by
  unfold initEvs
  exact pairwise_popStep _

lemma pairwise_finish (c : Config) (env : Env) (pre : List Ev)
    (hpre : List.Pairwise (fun a b => phase a ≤ phase b) pre)
    (hpre3 : ∀ a ∈ pre, phase a ≤ 3) :
    List.Pairwise (fun a b => phase a ≤ phase b) ((finishBoot c env pre).1) := by
  unfold finishBoot
  dsimp only
  obtain ⟨n, hn⟩ :=
    run_population_steps_shape { c with tor := configure_tor c } env
  rw [hn, List.pairwise_append]
  refine ⟨hpre, ?_, ?_⟩
  · rw [List.pairwise_cons]
    refine ⟨fun b hb => ?_, pairwise_initEvs n⟩
    rw [phase_initEvs n b hb]
    exact by decide
  · intro a ha b hb
    rcases List.mem_cons.1 hb with rfl | hb2
    · exact hpre3 a ha
    · rw [phase_initEvs n b hb2]
      exact Nat.le_trans (hpre3 a ha) (by decide)

lemma finishBoot_not_exited (c : Config) (env : Env) (pre : List Ev)
    (code : Nat) : (finishBoot c env pre).2 ≠ .exited code := by
  unfold finishBoot
  dsimp only
  cases (run_population_steps { c with tor := configure_tor c } env).2 <;>
    intro h <;> cases h

lemma finishBoot_ready_redis (c : Config) (env : Env) (pre : List Ev)
    (c2 : Config) (h : (finishBoot c env pre).2 = .ready c2) :
    c2.redis = c.redis := by
  unfold finishBoot at h
  dsimp only at h
  cases hr : (run_population_steps { c with tor := configure_tor c } env).2 with
  | ok c3 =>
    rw [hr] at h
    injection h with h2
    subst h2
    have := run_population_steps_redis { c with tor := configure_tor c } env
    rw [hr] at this
    simp only [StepResult.config] at this
    exact this
  | fetchFailed c3 p =>
    rw [hr] at h
    cases h
  | raised c3 =>
    rw [hr] at h
    cases h

example : populate_subreddit_lists {} goodEnv = .ok cSubGood := by decide

example : (build_bot "bot" false goodEnv {}).2 = .ready cReadyNR := by decide

/-- C1 (counterexample): `populate_formatting` resets its fields to the
empty string before fetching, so a failed `format/audio` fetch leaves the
config with its formatting fields cleared, not unchanged: starting from
`cOld` (whose `audio_formatting` is `"old"`) and an environment where
every fetch fails, the step ends in the fetch-failed state `cOldReset`
whose `audio_formatting` differs from the original. -/
theorem c1_counterexample_eager_reset :
    populate_formatting cOld envNone =
      .fetchFailed cOldReset "format/audio" ∧
    cOld.audio_formatting = "old" ∧
    cOldReset.audio_formatting ≠ cOld.audio_formatting := by
  decide

/-- C1 (amended): each population step resets its owned fields eagerly,
before fetching.  If a step's first fetch fails, the step leaves its
eagerly-reset fields empty (for the subreddit step, the archive-time
fields, which are only written later, keep their old values); if a later
fetch fails, fields already assigned from earlier successful fetches keep
their newly fetched values.  The fields are therefore not left unchanged
on failure. -/
theorem c1_amended_reset_is_eager (c : Config) (env : Env) :
    (env.fetch "format/header" = none →
      populate_header c env =
        .fetchFailed { c with header := "" } "format/header") ∧
    (env.fetch "format/audio" = none →
      populate_formatting c env =
        .fetchFailed { c with
          audio_formatting := "",
          video_formatting := "",
          image_formatting := "" } "format/audio") ∧
    (env.fetch "domains" = none →
      populate_domain_lists c env =
        .fetchFailed { c with
          video_domains := [],
          image_domains := [],
          audio_domains := [] } "domains") ∧
    (env.fetch "subreddits" = none →
      populate_subreddit_lists c env =
        .fetchFailed { c with
          subreddits_to_check := [],
          upvote_filter_subs := [],
          no_link_header_subs := [] } "subreddits") ∧
    (env.fetch "usefulgifs/no" = none →
      populate_gifs c env =
        .fetchFailed { c with no_gifs := [] } "usefulgifs/no") ∧
    (∀ a, env.fetch "format/audio" = some a →
      env.fetch "format/video" = none →
      populate_formatting c env =
        .fetchFailed { c with
          audio_formatting := a,
          video_formatting := "",
          image_formatting := "" } "format/video") := by
  refine ⟨?_, ?_, ?_, ?_, ?_, ?_⟩
  · intro h
    unfold populate_header withPage
    rw [h]
  · intro h
    unfold populate_formatting withPage
    rw [h]
  · intro h
    unfold populate_domain_lists withPage
    rw [h]
  · intro h
    rw [populate_subreddit_lists_eq]
    have hp : subPure env = .f1 := by
      unfold subPure
      rw [h]
    rw [hp]
    rfl
  · intro h
    unfold populate_gifs withPage
    rw [h]
  · intro a ha hv
    unfold populate_formatting withPage
    rw [ha]
    dsimp only
    rw [hv]

/-- C1 (witness): the amended theorem applied to `cOld` and the
all-fetches-fail environment. -/
theorem c1_witness :
    populate_gifs cOld envNone =
      .fetchFailed { cOld with no_gifs := [] } "usefulgifs/no" :=
  (c1_amended_reset_is_eager cOld envNone).2.2.2.2.1 rfl

/-- C2: every population step is idempotent: rerunning it from the config
state it produced, against the same environment, yields exactly the same
outcome (and hence the same config field values) — no entries accumulate
or survive from the previous run. -/
theorem c2_population_steps_idempotent (c : Config) (env : Env) :
    populate_domain_lists ((populate_domain_lists c env).config) env =
      populate_domain_lists c env ∧
    populate_subreddit_lists ((populate_subreddit_lists c env).config) env =
      populate_subreddit_lists c env ∧
    populate_formatting ((populate_formatting c env).config) env =
      populate_formatting c env ∧
    populate_header ((populate_header c env).config) env =
      populate_header c env ∧
    populate_moderators ((populate_moderators c env).config) env =
      populate_moderators c env ∧
    populate_gifs ((populate_gifs c env).config) env = populate_gifs c env :=
  ⟨populate_domain_lists_rerun c env, populate_subreddit_lists_rerun c env,
   populate_formatting_rerun c env, populate_header_rerun c env,
   populate_moderators_rerun c env, populate_gifs_rerun c env⟩

/-- C3: in a cache-required bootstrap whose Redis ping fails, `build_bot`
terminates with exit status 1 and no population step event ever appears in
its trace. -/
theorem c3_cache_failure_exits_before_steps (name : String) (env : Env)
    (c0 : Config) (h : env.redisOk = false) :
    (build_bot name true env c0).2 = .exited 1 ∧
    ∀ s, Ev.popStep s ∉ (build_bot name true env c0).1 := by
  rw [build_bot_true_fail name env c0 h]
  refine ⟨rfl, ?_⟩
  intro s hs
  simp at hs

/-- C3 (witness): the theorem applied to a concrete environment whose ping
fails. -/
theorem c3_witness :
    (build_bot "bot" true envNoRedis {}).2 = .exited 1 ∧
    ∀ s, Ev.popStep s ∉ (build_bot "bot" true envNoRedis {}).1 :=
  c3_cache_failure_exits_before_steps "bot" envNoRedis {} rfl

/-- C4 (counterexample): the claimed phase order (subreddit selection
before the cache check) is violated by an actual run: in the trace of a
healthy cache-required bootstrap the cache check happens before the
subreddit selection. -/
theorem c4_counterexample_cache_before_select :
    ¬ claimedPhaseOrder (build_bot "bot" true goodEnv {}).1 := by
  decide

/-- C4 (amended): `build_bot` performs its phases in the order: platform
authentication, logging configuration, cache-connection check (present
only when the cache is required), subreddit selection, population steps —
the trace is sorted by `phase`, with no other interleaving. -/
theorem c4_amended_phase_order (name : String) (rr : Bool) (env : Env)
    (c0 : Config) :
    List.Pairwise (fun a b => phase a ≤ phase b) (build_bot name rr env c0).1 := by
  cases rr with
  | false =>
    rw [build_bot_false]
    exact pairwise_finish _ env _ (by decide) (by decide)
  | true =>
    cases hre : env.redisOk with
    | true =>
      rw [build_bot_true_ok name env c0 hre]
      exact pairwise_finish _ env _ (by decide) (by decide)
    | false =>
      rw [build_bot_true_fail name env c0 hre]
      decide

/-- C5: on the input `"video[a.com, b.com]---audio[c.com]"` the domain
parser of `populate_domain_lists` produces video domains `a.com, b.com`,
audio domain `c.com`, and no image domains. -/
theorem c5_parse_domain_blocks_example :
    populate_domain_lists {} envDomainsEx =
      .ok { video_domains := ["a.com", "b.com"], audio_domains := ["c.com"],
            image_domains := [] } := by
  decide

/-- C6 (counterexample): `populate_gifs` stores the raw `'\r\n'` split
without cleaning, so on an empty `usefulgifs/no` page the step succeeds
with `no_gifs = [""]` — an empty string is in a line-list field. -/
theorem c6_counterexample_gifs_empty_string :
    populate_gifs cOld envGifsEmpty = .ok { cOld with no_gifs := [""] } ∧
    "" ∈ ({ cOld with no_gifs := [""] } : Config).no_gifs := by
  decide

/-- C6 (amended): the cleaned line-list fields `subreddits_to_check` and
`no_link_header_subs` contain no empty strings after a successful
subreddit-list run, for every fetched page text, and the line-list parse
of the empty page is the empty sequence; but `no_gifs` is the raw
`'\r\n'` split of the page, uncleaned, and so may contain empty strings. -/
theorem c6_amended_clean_lists_no_empty (c : Config) (env : Env) (c' : Config)
    (h : populate_subreddit_lists c env = .ok c') :
    "" ∉ c'.subreddits_to_check ∧ "" ∉ c'.no_link_header_subs ∧
    clean_list (pySplit "\r\n" "") = [] ∧
    (∀ t, env.fetch "usefulgifs/no" = some t →
      ∀ c2, populate_gifs c' env = .ok c2 → c2.no_gifs = pySplit "\r\n" t) := by
  rcases populate_subreddit_lists_okE h with
    ⟨t1, t3, m, d, rest, am, e1, e3, harch, earch, hc⟩
  subst hc
  refine ⟨clean_list_no_empty _, clean_list_no_empty _, by decide, ?_⟩
  intro t ht c2 h2
  unfold populate_gifs withPage at h2
  rw [ht] at h2
  injection h2 with h3
  rw [← h3]

/-- C6 (witness): the amended theorem applied to a successful concrete
subreddit-list run. -/
theorem c6_witness :
    "" ∉ cSubGood.subreddits_to_check ∧ "" ∉ cSubGood.no_link_header_subs ∧
    clean_list (pySplit "\r\n" "") = [] ∧
    (∀ t, goodEnv.fetch "usefulgifs/no" = some t →
      ∀ c2, populate_gifs cSubGood goodEnv = .ok c2 →
        c2.no_gifs = pySplit "\r\n" t) :=
  c6_amended_clean_lists_no_empty {} goodEnv cSubGood (by decide)

/-- C7: lenient parsing never raises and contributes nothing for
malformed-but-recoverable input: the key/value loops (plain and lowering)
ignore every line without a comma — running them on any line list equals
running them on only the comma-containing lines — and a domain block that
has a bracket but an unknown category prefix leaves all three domain
lists untouched. -/
theorem c7_lenient_parsing :
    (∀ (lines : List String) (m : List (String × Int)),
      buildKV false lines m =
        buildKV false (lines.filter (fun l => hasComma l)) m) ∧
    (∀ (lines : List String) (m : List (String × Int)),
      buildKV true lines m =
        buildKV true (lines.filter (fun l => hasComma l)) m) ∧
    (∀ (b : String) (i : Nat) (rest : List String) (c : Config),
      bracketIdx b = some i →
      pyStartsWith "video" b = false →
      pyStartsWith "audio" b = false →
      pyStartsWith "images" b = false →
      processDomainBlocks (b :: rest) c = processDomainBlocks rest c) :=
  ⟨buildKV_filter false, buildKV_filter true,
   fun _ _ rest c hb hv ha hi => processDomainBlocks_unknown rest c hb hv ha hi⟩

/-- C7 (witness): an unknown-category block with a bracket is skipped. -/
theorem c7_witness :
    processDomainBlocks ["other[x.com]"] {} = processDomainBlocks [] {} :=
  c7_lenient_parsing.2.2 "other[x.com]" 5 [] {} (by decide) (by decide)
    (by decide) (by decide)

/-- C8: after a successful subreddit-list run, every key of
`archive_time_subreddits` is a lowercased string, the archive default
equals the integer parsed from the first line of the archive-time page,
and the per-subreddit map is exactly the key/value fold over the
subsequent lines starting from the empty map. -/
theorem c8_archive_times_lowercased_default_first (c : Config) (env : Env)
    (c' : Config) (h : populate_subreddit_lists c env = .ok c') :
    (∀ kv ∈ c'.archive_time_subreddits, pyLower kv.1 = kv.1) ∧
    (∀ t4 l0 rest, env.fetch "subreddits/archive-time" = some t4 →
      pySplitlines t4 = l0 :: rest →
      pyInt l0 = some c'.archive_time_default ∧
      buildKV true rest [] = .ok c'.archive_time_subreddits) := by
  rcases populate_subreddit_lists_okE h with
    ⟨t1, t3, m, d, rest, am, e1, e3, ⟨t4, l0, e4, el, eint⟩, earch, hc⟩
  subst hc
  constructor
  · intro kv hkv
    exact buildKV_lower_keys rest [] am earch (by intro kv2 h2; cases h2) kv hkv
  · intro t4' l0' rest' h4' hl'
    rw [e4] at h4'
    injection h4' with ht
    subst ht
    rw [el] at hl'
    injection hl' with h1 h2
    subst h1
    subst h2
    exact ⟨eint, earch⟩

/-- C8 (witness): the theorem applied to a successful concrete run whose
archive-time page is `"600\r\nFoo,100"`. -/
theorem c8_witness :
    (∀ kv ∈ cSubGood.archive_time_subreddits, pyLower kv.1 = kv.1) ∧
    (∀ t4 l0 rest, goodEnv.fetch "subreddits/archive-time" = some t4 →
      pySplitlines t4 = l0 :: rest →
      pyInt l0 = some cSubGood.archive_time_default ∧
      buildKV true rest [] = .ok cSubGood.archive_time_subreddits) :=
  c8_archive_times_lowercased_default_first {} goodEnv cSubGood (by decide)

/-- C9: when the caller opts out of requiring the cache, `build_bot` never
exits the process, and whenever it completes the stored cache handle is
the substituted thunk, which raises `NotImplementedError` on its first
use — not at bootstrap time. -/
theorem c9_redis_optional_lazy_failure (name : String) (env : Env)
    (c0 : Config) :
    (∀ code, (build_bot name false env c0).2 ≠ .exited code) ∧
    (∀ c, (build_bot name false env c0).2 = .ready c →
      c.redis = .disabledThunk ∧
      c.redis.firstUse =
        .error "NotImplementedError: Redis was disabled during building!") := by
  constructor
  · intro code
    rw [build_bot_false]
    exact finishBoot_not_exited _ env _ code
  · intro c hc
    rw [build_bot_false] at hc
    have h2 := finishBoot_ready_redis _ env _ c hc
    have h3 : c.redis = RedisHandle.disabledThunk := h2
    refine ⟨h3, ?_⟩
    rw [h3]
    rfl

/-- C9 (witness): a concrete cache-less bootstrap completes, stores the
thunk, and the thunk errors on first use. -/
theorem c9_witness :
    cReadyNR.redis = .disabledThunk ∧
    cReadyNR.redis.firstUse =
      .error "NotImplementedError: Redis was disabled during building!" :=
  (c9_redis_optional_lazy_failure "bot" goodEnv {}).2 cReadyNR (by decide)

/-- C10: the domain parser is not total: whenever some `---`-separated
block of the domains page has no `'['`, `populate_domain_lists` ends in
the raised state, and concretely a trailing `---` (empty final block)
raises after the earlier blocks were already committed, leaving the
domain lists partially filled. -/
theorem c10_domain_parser_raises_on_bracketless_block (c : Config)
    (env : Env) (t : String) (hf : env.fetch "domains" = some t)
    (hb : ∃ b ∈ pySplit "---" (joinLines t), bracketIdx b = none) :
    (∃ c', populate_domain_lists c env = .raised c') ∧
    populate_domain_lists {} envDomainsBad =
      .raised { video_domains := ["a.com"] } := by
  constructor
  · unfold populate_domain_lists withPage
    rw [hf]
    exact processDomainBlocks_raises _ _ hb
  · decide

/-- C10 (witness): the theorem applied to the concrete trailing-delimiter
page `"video[a.com]---"`. -/
theorem c10_witness :
    (∃ c', populate_domain_lists {} envDomainsBad = .raised c') ∧
    populate_domain_lists {} envDomainsBad =
      .raised { video_domains := ["a.com"] } :=
  c10_domain_parser_raises_on_bracketless_block {} envDomainsBad
    "video[a.com]---" (by decide) ⟨"", by decide, by decide⟩
